import Mathlib

/-!
Verification of the frame-bridge core of `video-encoding-demo`
(`encoding_lib/src/data_provider.rs`, `encoding_lib/src/data_provider_impls.rs`).

The Rust code is shallowly embedded: the GStreamer `AppSrc` sink is modelled
as an explicit state (`AppSrcState`) plus an external behaviour (`SinkBehavior`)
deciding the result of each `push_buffer` / `end_of_stream` call; the pixel
packing loops become structurally recursive list functions; `unwrap` on a
failed external call becomes `Except.error RustPanic.unwrapFailed`.
u8 subpixels are `Nat` values (the code only moves bytes, never does
arithmetic on them, so no wrap-around modelling is needed); the `u64`
frame counter is a `Nat` (it is only ever incremented by one and compared,
never wrapped at the scales any claim touches).
-/

deriving instance DecidableEq for Except

namespace VideoEncodingDemo

/-- An RGBA pixel as produced by `image::ImageBuffer<Rgba<u8>, _>` /
`DynamicImage::into_rgba8`; channel array is `[r, g, b, a]`. -/
structure Rgba where
  r : Nat
  g : Nat
  b : Nat
  a : Nat
deriving DecidableEq

/-- An RGB pixel (a source format without an alpha channel). -/
structure Rgb where
  r : Nat
  g : Nat
  b : Nat
deriving DecidableEq

/-- A BGRA pixel as produced by `image::Pixel::to_bgra`; channel array is
`[b, g, r, a]`. -/
structure Bgra where
  b : Nat
  g : Nat
  r : Nat
  a : Nat
deriving DecidableEq

/-- `Pixel::to_bgra` for an RGBA source: channels reordered, alpha kept. -/
def Rgba.to_bgra (p : Rgba) : Bgra := ⟨p.b, p.g, p.r, p.a⟩

/-- `Pixel::to_bgra` for an RGB source: channels reordered, alpha forced to
the maximum subpixel value 255 (the `image` crate's conversion). -/
def Rgb.to_bgra (p : Rgb) : Bgra := ⟨p.b, p.g, p.r, 255⟩

/-- The channel array of a `Bgra` pixel, as read by `frame_pixels[0..4]` in
`reciever_data_provider` (data_provider_impls.rs:59-62). -/
def bgraChannels (p : Bgra) : List Nat := [p.b, p.g, p.r, p.a]

/-- The four bytes `vec_data_provider` writes for one source pixel
(data_provider_impls.rs:121-124): channels 0,1,2 of the RGBA pixel in source
order and a forced `0` in byte 3. -/
def vecPixelBytes (p : Rgba) : List Nat := [p.r, p.g, p.b, 0]

/-- `DataGenReturn` (data_provider.rs:11-15): the three return shapes a data
provider callback may use. `anyhow::Error` is modelled by its message string. -/
inductive DataGenReturn where
  | result : Except String Unit → DataGenReturn
  | option : Option Unit → DataGenReturn
  | unit : DataGenReturn
deriving DecidableEq

/-- `Into<anyhow::Result<()>> for DataGenReturn` (data_provider.rs:27-37):
the outcome normalization into one decision value (`ok` = continue,
`error` = stop with that failure). -/
def DataGenReturn.into : DataGenReturn → Except String Unit
  | DataGenReturn.result r => r
  | DataGenReturn.option o =>
    match o with
    | some _ => Except.ok ()
    | none => Except.error "Data provider callback returned a None variant"
  | DataGenReturn.unit => Except.ok ()

/-- A `gst::Buffer` as observed by the sink: its presentation timestamp in
milliseconds and the bytes of its single plane. -/
structure GstBuffer where
  ptsMs : Nat
  data : List Nat
deriving DecidableEq

/-- The observable state of the `AppSrc` sink: the buffers handed to
`push_buffer` (in order) and how many times `end_of_stream` was invoked. -/
structure AppSrcState where
  pushed : List GstBuffer
  eosCalls : Nat
deriving DecidableEq

def AppSrcState.init : AppSrcState := ⟨[], 0⟩

/-- External behaviour of the sink: whether the n-th `push_buffer` call and
the n-th `end_of_stream` call succeed. The bridge code never controls these;
they are parameters of every run. -/
structure SinkBehavior where
  pushOk : Nat → Bool
  eosOk : Nat → Bool

/-- A sink that accepts every push and every end-of-stream signal. -/
def allOk : SinkBehavior := ⟨fun _ => true, fun _ => true⟩

/-- A sink that rejects every push (used to model `PushFailure`). -/
def rejectPush : SinkBehavior := ⟨fun _ => false, fun _ => true⟩

/-- `appsrc.push_buffer(buffer)`: records the buffer, returns the sink's
verdict on this (the n-th) push. -/
def push_buffer (sb : SinkBehavior) (s : AppSrcState) (b : GstBuffer) :
    AppSrcState × Bool :=
  (⟨s.pushed ++ [b], s.eosCalls⟩, sb.pushOk s.pushed.length)

/-- `appsrc.end_of_stream()`: records the signal, returns the sink's verdict
on this (the n-th) end-of-stream call. -/
def end_of_stream (sb : SinkBehavior) (s : AppSrcState) : AppSrcState × Bool :=
  (⟨s.pushed, s.eosCalls + 1⟩, sb.eosOk s.eosCalls)

/-- A Rust panic (an `unwrap()` of a failed external call). -/
inductive RustPanic where
  | unwrapFailed
deriving DecidableEq

/-- The slice of `gst_video::VideoInfo` the providers read: frame width,
height and the stride of plane 0 (bytes per destination row, possibly larger
than `4 * width`). -/
structure VideoInfo where
  width : Nat
  height : Nat
  stride : Nat
deriving DecidableEq

/-- `video_info.size()` for the single-plane packed formats the library
configures (`Bgrx`): one plane of `stride * height` bytes. -/
def VideoInfo.size (vi : VideoInfo) : Nat := vi.stride * vi.height

/-- The slice of `VideoSettings` (lib.rs:35-52) the providers read:
the integer framerate (`u64`). -/
structure VideoSettings where
  framerate : Nat
deriving DecidableEq

/-- The inner loop `for pixel in line[..(4 * width)].chunks_exact_mut(4)`
(data_provider_impls.rs:57-64 and 119-126): write the next 4-byte pixel of
`px` over each successive 4-byte chunk of `row`, for `n` chunks; once the
pixel iterator is exhausted the remaining chunks are left unmodified.
Returns the rewritten row prefix together with the unconsumed pixels. -/
def writeChunks : Nat → List Nat → List (List Nat) → List Nat × List (List Nat)
  | 0, row, px => (row, px)
  | _ + 1, row, [] => (row, [])
  | n + 1, row, p :: rest =>
    let r := writeChunks n (List.drop 4 row) rest
    (p ++ r.1, r.2)

/-- The outer loop `for line in plane.chunks_exact_mut(stride).take(height)`
(data_provider_impls.rs:51-65 and 113-127): rewrite up to `h` complete
`stride`-byte rows of `plane`, threading the pixel iterator across rows;
within a row only the leading `4 * width` bytes (`line[..(4 * width)]`) are
touched. `chunks_exact` stops at an incomplete trailing chunk, hence the
length guard. The Rust slice `line[..(4 * width)]` requires
`4 * width ≤ stride` (it panics otherwise); the theorems below assume this,
as the `Bgrx` layouts the library constructs guarantee it. -/
def packPlane (stride width : Nat) : Nat → List Nat → List (List Nat) → List Nat
  | 0, plane, _ => plane
  | h + 1, plane, px =>
    if plane.length < stride then plane
    else
      let row := List.take stride plane
      let r := writeChunks width (List.take (4 * width) row) px
      (r.1 ++ List.drop (4 * width) row) ++
        packPlane stride width h (List.drop stride plane) r.2

/-- `vec_data_provider` (data_provider_impls.rs:77-133), one invocation of
the sink's pull (`need_data`) handler for the Collection-backed source.
Inputs beyond the Rust arguments: `sb` is the sink's external behaviour and
`fresh` the contents of the freshly allocated `gst::Buffer::with_size`
buffer. `frame_num` is the shared counter's value on entry, `images` the
shared collection (each image its RGBA8 pixel sequence, as produced by
`into_rgba8`). Returns the new counter and sink state, or a panic: the code
unwraps `end_of_stream()` (line 88), `images.get(frame_num)` (line 95) and
`push_buffer(buffer)` (line 132). -/
def vec_data_provider (sb : SinkBehavior) (video_info : VideoInfo)
    (video_settings : VideoSettings) (fresh : List Nat) (length : Nat)
    (frame_num : Nat) (images : List (List Rgba)) (s : AppSrcState) :
    Except RustPanic (Nat × AppSrcState) :=
  if frame_num = images.length then
    let r := end_of_stream sb s
    if r.2 then Except.ok (frame_num, r.1) else Except.error RustPanic.unwrapFailed
  else
    match images[frame_num]? with
    | none => Except.error RustPanic.unwrapFailed
    | some image =>
      let ptsMs := frame_num * (1000 / video_settings.framerate)
      let px := image.map vecPixelBytes
      let data :=
        packPlane video_info.stride video_info.width video_info.height fresh px
      let r := push_buffer sb s ⟨ptsMs, data⟩
      if r.2 then Except.ok (frame_num + 1, r.1)
      else Except.error RustPanic.unwrapFailed

/-- The `for _ in 0..BUFFER_SIZE` loop of `reciever_data_provider`
(data_provider_impls.rs:34-74). `msgs` is the sequence of frames the
channel will still deliver before `recv()` reports disconnection; `toBgra`
is the source pixel format's `Pixel::to_bgra`. Each iteration allocates a
fresh buffer, receives, timestamps, packs, increments the counter and then
pushes (unwrapping the push result, line 73); a failed `recv` signals
end-of-stream — its result discarded (line 69) — and returns. -/
def reciever_burst_loop {P : Type} (toBgra : P → Bgra) (sb : SinkBehavior)
    (video_info : VideoInfo) (video_settings : VideoSettings)
    (fresh : List Nat) :
    Nat → Nat → List (List P) → AppSrcState →
    Except RustPanic (Nat × List (List P) × AppSrcState)
  | 0, frame_num, msgs, s => Except.ok (frame_num, msgs, s)
  | _ + 1, frame_num, [], s =>
    let r := end_of_stream sb s
    Except.ok (frame_num, [], r.1)
  | k + 1, frame_num, image :: rest, s =>
    let ptsMs := frame_num * (1000 / video_settings.framerate)
    let px := image.map (fun p => bgraChannels (toBgra p))
    let data :=
      packPlane video_info.stride video_info.width video_info.height fresh px
    let r := push_buffer sb s ⟨ptsMs, data⟩
    if r.2 then
      reciever_burst_loop toBgra sb video_info video_settings fresh
        k (frame_num + 1) rest r.1
    else Except.error RustPanic.unwrapFailed

/-- `reciever_data_provider` (data_provider_impls.rs:16-75), one invocation
of the pull handler for the Channel-backed source: runs the burst loop for
`BUFFER_SIZE` iterations. -/
def reciever_data_provider {P : Type} (toBgra : P → Bgra) (BUFFER_SIZE : Nat)
    (sb : SinkBehavior) (video_info : VideoInfo)
    (video_settings : VideoSettings) (fresh : List Nat) (length : Nat)
    (frame_num : Nat) (msgs : List (List P)) (s : AppSrcState) :
    Except RustPanic (Nat × List (List P) × AppSrcState) :=
  reciever_burst_loop toBgra sb video_info video_settings fresh
    BUFFER_SIZE frame_num msgs s

/-- Repeated pull requests against `vec_data_provider`: `n` successive
invocations of the handler (the sink issuing `n` bursts), threading the
frame counter and sink state. -/
def runVec (sb : SinkBehavior) (video_info : VideoInfo)
    (video_settings : VideoSettings) (fresh : List Nat) (length : Nat)
    (images : List (List Rgba)) :
    Nat → Nat × AppSrcState → Except RustPanic (Nat × AppSrcState)
  | 0, st => Except.ok st
  | n + 1, st =>
    match vec_data_provider sb video_info video_settings fresh length
        st.1 images st.2 with
    | Except.ok st2 => runVec sb video_info video_settings fresh length images n st2
    | Except.error e => Except.error e

/-- The buffer `vec_data_provider` pushes for frame `frame_num`. -/
def vecBuf (video_info : VideoInfo) (video_settings : VideoSettings)
    (fresh : List Nat) (images : List (List Rgba)) (frame_num : Nat) :
    GstBuffer :=
  ⟨frame_num * (1000 / video_settings.framerate),
   packPlane video_info.stride video_info.width video_info.height fresh
     ((images[frame_num]?.getD []).map vecPixelBytes)⟩

/-- The buffers one receiver burst pushes for the frames `msgs`, the first
stamped with index `frame_num`. -/
def recvBufs {P : Type} (toBgra : P → Bgra) (video_info : VideoInfo)
    (video_settings : VideoSettings) (fresh : List Nat) :
    Nat → List (List P) → List GstBuffer
  | _, [] => []
  | frame_num, image :: rest =>
    ⟨frame_num * (1000 / video_settings.framerate),
     packPlane video_info.stride video_info.width video_info.height fresh
       (image.map (fun p => bgraChannels (toBgra p)))⟩ ::
      recvBufs toBgra video_info video_settings fresh (frame_num + 1) rest

/-- `gst::State`: only the two states `encode_video` sets. -/
inductive GstState where
  | playing
  | null
deriving DecidableEq

/-- `gst::MessageView` as matched by `encode_video`
(data_provider.rs:166-176); payloads are modelled by their printed text. -/
inductive MessageView where
  | eos
  | error (e : String)
  | progress (p : String)
  | warning (w : String)
  | info (i : String)
  | other
deriving DecidableEq

/-- The bus loop of `encode_video` (data_provider.rs:165-177): consume bus
messages in order; `Eos` breaks the loop; `Error` sets the pipeline to
`Null` and continues; `Progress` / `Warning` / `Info` / anything else only
log and continue. Returns the messages the loop consumed and the pipeline
state when it exits (the stream ending stands for the blocking iterator
yielding no further message). -/
def encode_video_loop : List MessageView → GstState → List MessageView × GstState
  | [], st => ([], st)
  | MessageView.eos :: _, st => ([MessageView.eos], st)
  | MessageView.error e :: rest, _ =>
    let r := encode_video_loop rest GstState.null
    (MessageView.error e :: r.1, r.2)
  | m :: rest, st =>
    let r := encode_video_loop rest st
    (m :: r.1, r.2)

/-- The tail of `encode_video` (data_provider.rs:165-181): run the bus loop
from `Playing`, then unconditionally set the pipeline to `Null`. -/
def encode_video_run (msgs : List MessageView) : List MessageView × GstState :=
  ((encode_video_loop msgs GstState.playing).1, GstState.null)

/-! Concrete fixtures used by the example-level theorems. -/

/-- A 1×1 destination plane: width 1, height 1, stride 4. -/
def vi1 : VideoInfo := ⟨1, 1, 4⟩

def vs30 : VideoSettings := ⟨30⟩

def vs60 : VideoSettings := ⟨60⟩

/-- A sample RGBA pixel with four distinct channel values. -/
def px1 : Rgba := ⟨1, 2, 3, 4⟩

def images4 : List (List Rgba) := [[px1], [px1], [px1], [px1]]

def images5 : List (List Rgba) := [[px1], [px1], [px1], [px1], [px1]]

/-- Contents of a freshly allocated 4-byte buffer. -/
def fresh4 : List Nat := [0, 0, 0, 0]

/-- The four written pixel quadruples of a 2×2 source frame. -/
def pix4 : List (List Nat) :=
  [[100, 100, 100, 100], [101, 101, 101, 101],
   [102, 102, 102, 102], [103, 103, 103, 103]]

/-- Contents of a freshly allocated 9-valued 4-byte buffer. -/
def fresh9 : List Nat := [9, 9, 9, 9]

/-! Helper lemmas about the packing loops and the providers. -/

theorem writeChunks_snd_mem (n : Nat) (row : List Nat) (px : List (List Nat)) :
    ∀ q ∈ (writeChunks n row px).2, q ∈ px := by
  induction n generalizing row px with
  | zero => intro q hq; exact hq
  | succ n ih =>
    cases px with
    | nil => intro q hq; simp [writeChunks] at hq
    | cons p rest =>
      intro q hq
      simp only [writeChunks] at hq
      exact List.mem_cons_of_mem p (ih (List.drop 4 row) rest q hq)

theorem writeChunks_fst_length (n : Nat) (row : List Nat)
    (px : List (List Nat)) (hn : 4 * n ≤ row.length)
    (hp : ∀ q ∈ px, q.length = 4) :
    (writeChunks n row px).1.length = row.length := by
  induction n generalizing row px with
  | zero => rfl
  | succ n ih =>
    cases px with
    | nil => rfl
    | cons p rest =>
      have hplen : p.length = 4 := hp p (List.mem_cons_self p rest)
      have hdrop : 4 * n ≤ (List.drop 4 row).length := by
        simp only [List.length_drop]; omega
      have hrest : ∀ q ∈ rest, q.length = 4 := fun q hq =>
        hp q (List.mem_cons_of_mem p hq)
      simp only [writeChunks, List.length_append, ih (List.drop 4 row) rest hdrop hrest,
        List.length_drop, hplen]
      omega

theorem packPlane_padding_aux (stride width : Nat) (j : Nat)
    (hw : 4 * width ≤ stride) (hj1 : 4 * width ≤ j) (hj2 : j < stride) :
    ∀ (h : Nat) (plane : List Nat) (px : List (List Nat)) (r : Nat),
      (∀ q ∈ px, q.length = 4) → r < h →
      (packPlane stride width h plane px)[r * stride + j]? =
        plane[r * stride + j]? := by
  intro h
  induction h with
  | zero => intro plane px r _ hr; exact absurd hr (Nat.not_lt_zero r)
  | succ h ih =>
    intro plane px r hp hr
    by_cases hlen : plane.length < stride
    · simp only [packPlane, if_pos hlen]
    · have hlen2 : stride ≤ plane.length := Nat.le_of_not_lt hlen
      have hrowlen : (List.take stride plane).length = stride :=
        List.length_take_of_le hlen2
      have hslicelen :
          (List.take (4 * width) (List.take stride plane)).length = 4 * width := by
        rw [List.length_take_of_le]; rw [hrowlen]; exact hw
      have hW1len :
          (writeChunks width (List.take (4 * width) (List.take stride plane))
              px).1.length = 4 * width := by
        rw [writeChunks_fst_length width _ px (by rw [hslicelen]) hp, hslicelen]
      have hrowoutlen :
          ((writeChunks width (List.take (4 * width) (List.take stride plane))
                px).1 ++
              List.drop (4 * width) (List.take stride plane)).length = stride := by
        rw [List.length_append, hW1len, List.length_drop, hrowlen]; omega
      simp only [packPlane, if_neg hlen]
      cases r with
      | zero =>
        rw [Nat.zero_mul, Nat.zero_add]
        rw [List.getElem?_append_left (by rw [hrowoutlen]; exact hj2)]
        rw [List.getElem?_append_right (by rw [hW1len]; exact hj1)]
        rw [hW1len, List.getElem?_drop]
        have hjj : 4 * width + (j - 4 * width) = j := by omega
        rw [hjj, List.getElem?_take_of_lt hj2]
      | succ r1 =>
        have hmul : (r1 + 1) * stride = r1 * stride + stride :=
          Nat.succ_mul r1 stride
        have hidx : stride ≤ (r1 + 1) * stride + j := by omega
        rw [List.getElem?_append_right (by rw [hrowoutlen]; exact hidx)]
        rw [hrowoutlen]
        have hsub : (r1 + 1) * stride + j - stride = r1 * stride + j := by omega
        rw [hsub]
        have hp2 : ∀ q ∈
            (writeChunks width (List.take (4 * width) (List.take stride plane))
              px).2, q.length = 4 :=
          fun q hq => hp q (writeChunks_snd_mem width _ px q hq)
        rw [ih (List.drop stride plane) _ r1 hp2 (Nat.lt_of_succ_lt_succ hr)]
        rw [List.getElem?_drop]
        congr 1
        omega

theorem vec_data_provider_step (sb : SinkBehavior) (vi : VideoInfo)
    (vs : VideoSettings) (fresh : List Nat) (len fn : Nat)
    (images : List (List Rgba)) (s : AppSrcState)
    (h : fn < images.length) (hpush : sb.pushOk s.pushed.length = true) :
    vec_data_provider sb vi vs fresh len fn images s =
      Except.ok (fn + 1,
        ⟨s.pushed ++ [vecBuf vi vs fresh images fn], s.eosCalls⟩) := by
  unfold vec_data_provider
  rw [if_neg (Nat.ne_of_lt h), List.getElem?_eq_getElem h]
  simp only [push_buffer, hpush, if_true, vecBuf,
    List.getElem?_eq_getElem h, Option.getD_some]

theorem vec_data_provider_exhausted (sb : SinkBehavior) (vi : VideoInfo)
    (vs : VideoSettings) (fresh : List Nat) (len : Nat)
    (images : List (List Rgba)) (s : AppSrcState)
    (heos : sb.eosOk s.eosCalls = true) :
    vec_data_provider sb vi vs fresh len images.length images s =
      Except.ok (images.length, ⟨s.pushed, s.eosCalls + 1⟩) := by
  unfold vec_data_provider
  simp only [if_pos rfl, end_of_stream, heos, if_true]

theorem runVec_ok (vi : VideoInfo) (vs : VideoSettings) (fresh : List Nat)
    (len : Nat) (images : List (List Rgba)) (n : Nat) :
    ∀ (fn : Nat) (s : AppSrcState), fn + n ≤ images.length →
      runVec allOk vi vs fresh len images n (fn, s) =
        Except.ok (fn + n,
          ⟨s.pushed ++
              (List.range n).map (fun i => vecBuf vi vs fresh images (fn + i)),
            s.eosCalls⟩) := by
  induction n with
  | zero => intro fn s _; simp [runVec]
  | succ n ih =>
    intro fn s h
    have h1 : fn < images.length := by omega
    rw [runVec,
      vec_data_provider_step allOk vi vs fresh len fn images s h1 rfl]
    dsimp only
    rw [ih (fn + 1) _ (by omega)]
    have hfn : fn + 1 + n = fn + (n + 1) := by omega
    rw [hfn]
    have hmap :
        (List.range n).map (fun i => vecBuf vi vs fresh images (fn + 1 + i)) =
          (List.range n).map
            (fun i => vecBuf vi vs fresh images (fn + Nat.succ i)) := by
      apply List.map_congr_left
      intro i _
      congr 1
      omega
    rw [List.range_succ_eq_map, List.map_cons, List.map_map, hmap]
    simp [Function.comp_def]

theorem recvBufs_length {P : Type} (toBgra : P → Bgra) (vi : VideoInfo)
    (vs : VideoSettings) (fresh : List Nat) :
    ∀ (fn : Nat) (msgs : List (List P)),
      (recvBufs toBgra vi vs fresh fn msgs).length = msgs.length := by
  intro fn msgs
  induction msgs generalizing fn with
  | nil => rfl
  | cons m rest ih => simp only [recvBufs, List.length_cons, ih]

theorem reciever_loop_closes {P : Type} (toBgra : P → Bgra) (vi : VideoInfo)
    (vs : VideoSettings) (fresh : List Nat) :
    ∀ (msgs : List (List P)) (BUFFER_SIZE fn : Nat) (s : AppSrcState),
      msgs.length < BUFFER_SIZE →
      reciever_burst_loop toBgra allOk vi vs fresh BUFFER_SIZE fn msgs s =
        Except.ok (fn + msgs.length, [],
          ⟨s.pushed ++ recvBufs toBgra vi vs fresh fn msgs,
            s.eosCalls + 1⟩) := by
  intro msgs
  induction msgs with
  | nil =>
    intro BUFFER_SIZE fn s h
    cases BUFFER_SIZE with
    | zero => omega
    | succ k =>
      simp [reciever_burst_loop, end_of_stream, recvBufs]
  | cons m rest ih =>
    intro BUFFER_SIZE fn s h
    cases BUFFER_SIZE with
    | zero => omega
    | succ k =>
      have hk : rest.length < k := by
        simp only [List.length_cons] at h; omega
      have htrue : allOk.pushOk s.pushed.length = true := rfl
      simp only [reciever_burst_loop, push_buffer, htrue, if_true]
      rw [ih k (fn + 1) _ hk]
      simp only [recvBufs, List.length_cons]
      have hfn : fn + 1 + rest.length = fn + (rest.length + 1) := by omega
      rw [hfn, List.append_assoc]
      rfl

/-! Claim theorems. -/

/-- C1, counterexample: the claim says the i-th pts is `floor(i * 1000 / F)`
ms. The code computes `i * (1000 / F)` (integer division first,
data_provider_impls.rs:98-100): for F = 30 and a 4-element collection the
emitted pts sequence is [0, 33, 66, 99], whose 4th entry 99 differs from
`floor(3 * 1000 / 30) = 100`. -/
theorem vec_pts_drift_counterexample :
    (runVec allOk vi1 vs30 fresh4 0 images4 4 (0, AppSrcState.init)).map
        (fun st => st.2.pushed.map GstBuffer.ptsMs) =
      Except.ok [0, 33, 66, 99] ∧
    3 * 1000 / 30 = 100 ∧ (99 : Nat) ≠ 100 := by
  refine ⟨?_, by decide, by decide⟩
  rfl

/-- C1, amended: the pts attached to the i-th pushed buffer equals
`i * floor(1000 / framerate)` milliseconds (the per-frame interval is
truncated first and then multiplied, so rounding error accumulates). For a
Collection-backed source of length L the emitted pts sequence is exactly
`[i * floor(1000 / F) | i in 0..L]`, and a Channel-backed burst stamps a
frame received at counter value `fn` with `fn * floor(1000 / F)`. -/
theorem pts_is_index_times_floored_interval {P : Type} (toBgra : P → Bgra)
    (vi : VideoInfo) (vs : VideoSettings) (fresh : List Nat) (len fn : Nat)
    (images : List (List Rgba)) (img : List P) (s : AppSrcState) :
    (runVec allOk vi vs fresh len images images.length
          (0, AppSrcState.init)).map
        (fun st => st.2.pushed.map GstBuffer.ptsMs) =
      Except.ok ((List.range images.length).map
        (fun i => i * (1000 / vs.framerate))) ∧
    (reciever_data_provider toBgra 2 allOk vi vs fresh len fn [img] s).map
        (fun st => st.2.2.pushed.map GstBuffer.ptsMs) =
      Except.ok (s.pushed.map GstBuffer.ptsMs ++
        [fn * (1000 / vs.framerate)]) := by
  constructor
  · rw [runVec_ok vi vs fresh len images images.length 0 AppSrcState.init
      (by omega)]
    simp [vecBuf, AppSrcState.init, Except.map]
  · rw [reciever_data_provider,
      reciever_loop_closes toBgra vi vs fresh [img] 2 fn s (by simp)]
    simp [recvBufs, Except.map]

/-- C2, counterexample: the claim says one pull-handler invocation packs and
pushes up to BufferSize frames (with framerate 60, BufferSize 3 and a
5-element collection, burst 1 would push frames 0, 1 and 2). In the code
`vec_data_provider` handles exactly one frame per invocation
(data_provider_impls.rs:77-133): the first burst pushes a single buffer and
advances the counter to 1, not 3. -/
theorem vec_burst_counterexample :
    (vec_data_provider allOk vi1 vs60 fresh4 0 0 images5
          AppSrcState.init).map
        (fun st => (st.1, st.2.pushed.length)) =
      Except.ok (1, 1) ∧ (1 : Nat) ≠ 3 := by
  refine ⟨?_, by decide⟩
  rfl

/-- C2, amended: for the Collection-backed source each pull-handler
invocation processes exactly one frame — it packs, timestamps and pushes
the single frame at the current counter and increments the counter — and if
the counter already equals the collection length it signals end-of-stream
without pushing. (With a 5-element collection it therefore takes five
bursts of one push each, then a sixth burst signalling exhaustion.) -/
theorem vec_one_frame_per_burst (vi : VideoInfo) (vs : VideoSettings)
    (fresh : List Nat) (len fn : Nat) (images : List (List Rgba))
    (s : AppSrcState) :
    (fn < images.length →
      vec_data_provider allOk vi vs fresh len fn images s =
        Except.ok (fn + 1,
          ⟨s.pushed ++ [vecBuf vi vs fresh images fn], s.eosCalls⟩)) ∧
    (fn = images.length →
      vec_data_provider allOk vi vs fresh len fn images s =
        Except.ok (fn, ⟨s.pushed, s.eosCalls + 1⟩)) := by
  constructor
  · intro h
    exact vec_data_provider_step allOk vi vs fresh len fn images s h rfl
  · intro h
    subst h
    exact vec_data_provider_exhausted allOk vi vs fresh len images s rfl

/-- Witness for `vec_one_frame_per_burst` at framerate 60 with the
5-element collection, first burst. -/
theorem vec_one_frame_per_burst_w :
    vec_data_provider allOk vi1 vs60 fresh4 0 0 images5 AppSrcState.init =
      Except.ok (1, ⟨[vecBuf vi1 vs60 fresh4 images5 0], 0⟩) := by
  have h :=
    (vec_one_frame_per_burst vi1 vs60 fresh4 0 0 images5 AppSrcState.init).1
      (by decide)
  simpa [AppSrcState.init] using h

/-- C3, counterexample: the claim says an empty optional (`None`) is
normalized to Stop-without-error (a stop decision carrying no failure
detail). The code maps `None` to `Err` carrying the message "Data provider
callback returned a None variant" (data_provider.rs:31-33) — the very same
decision value an explicit failure with that message produces, so the stop
decision does carry a failure detail. -/
theorem outcome_none_counterexample :
    DataGenReturn.into (DataGenReturn.option none) =
      Except.error "Data provider callback returned a None variant" ∧
    DataGenReturn.into (DataGenReturn.option none) =
      DataGenReturn.into (DataGenReturn.result
        (Except.error "Data provider callback returned a None variant")) ∧
    DataGenReturn.into (DataGenReturn.option none) ≠ Except.ok () := by
  refine ⟨rfl, rfl, by decide⟩

/-- C3, amended: the outcome normalization maps an explicit failure
`Err(e)` to Stop-with-error `e`; an empty optional `None` to Stop-with-error
carrying the fixed message "Data provider callback returned a None variant"
(not to an error-free stop); and presence (`Some`), success (`Ok`) and the
unit shape all to Continue. -/
theorem outcome_normalization (e : String) :
    DataGenReturn.into (DataGenReturn.result (Except.error e)) =
      Except.error e ∧
    DataGenReturn.into (DataGenReturn.option none) =
      Except.error "Data provider callback returned a None variant" ∧
    DataGenReturn.into (DataGenReturn.option (some ())) = Except.ok () ∧
    DataGenReturn.into (DataGenReturn.result (Except.ok ())) =
      Except.ok () ∧
    DataGenReturn.into DataGenReturn.unit = Except.ok () :=
  ⟨rfl, rfl, rfl, rfl, rfl⟩

/-- C4, counterexample: the claim says a pull-handler invocation after the
source has signaled end-of-stream does not repeat the end-of-stream signal.
For the Collection-backed source with an empty collection, two successive
invocations call `appsrc.end_of_stream()` twice (data_provider_impls.rs:88):
the sink records two end-of-stream signals, not one. -/
theorem exhausted_retry_counterexample :
    runVec allOk vi1 vs60 fresh4 0 ([] : List (List Rgba)) 2
        (0, AppSrcState.init) =
      Except.ok (0, ⟨[], 2⟩) ∧ (2 : Nat) ≠ 1 := by
  refine ⟨rfl, by decide⟩

/-- C4, amended: invoking the pull handler again on an already-exhausted
source performs no additional pushes, but it is not a no-op: each such
invocation invokes the sink's end-of-stream signal once more. The
Collection-backed path additionally unwraps the signal's result
(data_provider_impls.rs:88), so it does not fault only while the sink keeps
accepting the repeated signal; the Channel-backed path discards the result
(data_provider_impls.rs:69) and never faults. -/
theorem exhausted_call_signals_again {P : Type} (toBgra : P → Bgra)
    (BUFFER_SIZE : Nat) (vi : VideoInfo) (vs : VideoSettings)
    (fresh : List Nat) (len fn : Nat) (images : List (List Rgba))
    (s : AppSrcState) :
    (fn = images.length →
      vec_data_provider allOk vi vs fresh len fn images s =
        Except.ok (fn, ⟨s.pushed, s.eosCalls + 1⟩)) ∧
    (0 < BUFFER_SIZE →
      reciever_data_provider toBgra BUFFER_SIZE allOk vi vs fresh len fn
          [] s =
        Except.ok (fn, [], ⟨s.pushed, s.eosCalls + 1⟩)) := by
  constructor
  · intro h
    subst h
    exact vec_data_provider_exhausted allOk vi vs fresh len images s rfl
  · intro h
    rw [reciever_data_provider,
      reciever_loop_closes toBgra vi vs fresh [] BUFFER_SIZE fn s (by simpa)]
    simp [recvBufs]

/-- Witness for `exhausted_call_signals_again`: empty collection and closed
channel, one invocation each from the initial state. -/
theorem exhausted_call_signals_again_w :
    vec_data_provider allOk vi1 vs60 fresh4 0 0 [] AppSrcState.init =
      Except.ok (0, ⟨[], 1⟩) ∧
    reciever_data_provider Rgba.to_bgra 3 allOk vi1 vs60 fresh4 0 0 []
        AppSrcState.init =
      Except.ok (0, [], ⟨[], 1⟩) := by
  constructor
  · have h :=
      (exhausted_call_signals_again Rgba.to_bgra 3 vi1 vs60 fresh4 0 0 []
        AppSrcState.init).1 rfl
    simpa [AppSrcState.init] using h
  · have h :=
      (exhausted_call_signals_again Rgba.to_bgra 3 vi1 vs60 fresh4 0 0 []
        AppSrcState.init).2 (by decide)
    simpa [AppSrcState.init] using h

/-- C5, confirmed: if the Channel-backed source's channel delivers only
K < BufferSize frames in a burst and then reports closure, the burst pushes
exactly K buffers, signals end-of-stream exactly once, and performs no
(K+1)-th push (the burst loop returns immediately after the signal,
data_provider_impls.rs:67-71). -/
theorem reciever_closed_after_K_frames {P : Type} (toBgra : P → Bgra)
    (BUFFER_SIZE : Nat) (vi : VideoInfo) (vs : VideoSettings)
    (fresh : List Nat) (len fn : Nat) (msgs : List (List P))
    (s : AppSrcState) (h : msgs.length < BUFFER_SIZE) :
    (reciever_data_provider toBgra BUFFER_SIZE allOk vi vs fresh len fn
          msgs s).map
        (fun st => (st.1, st.2.1, st.2.2.pushed.length, st.2.2.eosCalls)) =
      Except.ok (fn + msgs.length, [], s.pushed.length + msgs.length,
        s.eosCalls + 1) := by
  rw [reciever_data_provider,
    reciever_loop_closes toBgra vi vs fresh msgs BUFFER_SIZE fn s h]
  simp [Except.map, recvBufs_length]

/-- Witness for `reciever_closed_after_K_frames`: K = 2 frames, BufferSize
3, from the initial state. -/
theorem reciever_closed_after_K_frames_w :
    (reciever_data_provider Rgba.to_bgra 3 allOk vi1 vs60 fresh4 0 0
          [[px1], [px1]] AppSrcState.init).map
        (fun st => (st.1, st.2.1, st.2.2.pushed.length, st.2.2.eosCalls)) =
      Except.ok (2, [], 2, 1) := by
  have h :=
    reciever_closed_after_K_frames Rgba.to_bgra 3 vi1 vs60 fresh4 0 0
      [[px1], [px1]] AppSrcState.init (by decide)
  simpa [AppSrcState.init] using h

/-- C6, counterexample: the claim says a push failure is surfaced to the
caller as an explicit run-level failure value and does not panic. In the
code both providers call `appsrc.push_buffer(buffer).unwrap()`
(data_provider_impls.rs:73 and 132): with a sink that rejects the push,
both invocations end in a panic, and no failure value reaches the caller
(the callbacks' return values are discarded by `encode_video`,
data_provider.rs:147). -/
theorem push_failure_counterexample :
    vec_data_provider rejectPush vi1 vs60 fresh4 0 0 images5
        AppSrcState.init =
      Except.error RustPanic.unwrapFailed ∧
    reciever_data_provider Rgba.to_bgra 3 rejectPush vi1 vs60 fresh4 0 0
        images5 AppSrcState.init =
      Except.error RustPanic.unwrapFailed := ⟨rfl, rfl⟩

/-- C6, amended: when the sink rejects a packed buffer, neither provider
silently drops the rejection or surfaces a run-level failure value —
both unwrap the push result and panic. -/
theorem push_failure_panics {P : Type} (toBgra : P → Bgra)
    (BUFFER_SIZE : Nat) (sb : SinkBehavior) (vi : VideoInfo)
    (vs : VideoSettings) (fresh : List Nat) (len fn : Nat)
    (images : List (List Rgba)) (img : List P) (rest : List (List P))
    (s : AppSrcState) (hr : sb.pushOk s.pushed.length = false) :
    (fn < images.length →
      vec_data_provider sb vi vs fresh len fn images s =
        Except.error RustPanic.unwrapFailed) ∧
    reciever_data_provider toBgra (BUFFER_SIZE + 1) sb vi vs fresh len fn
        (img :: rest) s =
      Except.error RustPanic.unwrapFailed := by
  constructor
  · intro h
    unfold vec_data_provider
    rw [if_neg (Nat.ne_of_lt h), List.getElem?_eq_getElem h]
    simp only [push_buffer, hr]
    rfl
  · rw [reciever_data_provider]
    simp only [reciever_burst_loop, push_buffer, hr]
    rfl

/-- Witness for `push_failure_panics`: a sink rejecting the first push. -/
theorem push_failure_panics_w :
    vec_data_provider rejectPush vi1 vs60 fresh4 0 0 images4
        AppSrcState.init =
      Except.error RustPanic.unwrapFailed ∧
    reciever_data_provider Rgba.to_bgra 3 rejectPush vi1 vs60 fresh4 0 0
        ([[px1]] : List (List Rgba)) AppSrcState.init =
      Except.error RustPanic.unwrapFailed := by
  have h :=
    push_failure_panics Rgba.to_bgra 2 rejectPush vi1 vs60 fresh4 0 0
      images4 [px1] [] AppSrcState.init rfl
  exact ⟨h.1 (by decide), h.2⟩

/-- C7, counterexample: the claim says an error message from the sink
terminates the run loop. In `encode_video` only `Eos` breaks the loop
(data_provider.rs:167); the `Error` arm sets the pipeline to `Null` and
continues (data_provider.rs:168-171): on the bus stream
[Error, Warning, Eos] the loop consumes all three messages — the warning is
still processed after the error — instead of stopping at the error. -/
theorem bus_error_continues_counterexample :
    (encode_video_loop
        [MessageView.error "fault", MessageView.warning "w",
          MessageView.eos] GstState.playing).1.length = 3 ∧
    (3 : Nat) ≠ 1 := by
  refine ⟨rfl, by decide⟩

/-- C7, amended: in the orchestrator's event loop an error message
transitions the pipeline to the Null (closed) state and is logged, but does
not end the loop; warning, info and progress messages never terminate the
run and leave the pipeline state unchanged; the loop ends when end-of-stream
is reported (or the bus yields no further message), and after the loop the
pipeline is always set to Null. -/
theorem bus_loop_semantics (rest : List MessageView) (st : GstState)
    (e w i p : String) :
    encode_video_loop (MessageView.eos :: rest) st = ([MessageView.eos], st) ∧
    encode_video_loop (MessageView.error e :: rest) st =
      (MessageView.error e :: (encode_video_loop rest GstState.null).1,
        (encode_video_loop rest GstState.null).2) ∧
    encode_video_loop (MessageView.warning w :: rest) st =
      (MessageView.warning w :: (encode_video_loop rest st).1,
        (encode_video_loop rest st).2) ∧
    encode_video_loop (MessageView.info i :: rest) st =
      (MessageView.info i :: (encode_video_loop rest st).1,
        (encode_video_loop rest st).2) ∧
    encode_video_loop (MessageView.progress p :: rest) st =
      (MessageView.progress p :: (encode_video_loop rest st).1,
        (encode_video_loop rest st).2) ∧
    (encode_video_run rest).2 = GstState.null := by
  refine ⟨rfl, rfl, ?_, ?_, ?_, rfl⟩ <;> simp [encode_video_loop]

/-- C8, confirmed: packing writes only the leading `width × 4` bytes
(`width × bytesPerPixel` for the 4-byte packed destination formats) of each
destination row — the inner loop ranges over `line[..(4 * width)]`
(data_provider_impls.rs:57 and 119) — so every byte of a row at offset
`4 * width ≤ j < stride` keeps its prior contents after packing, for any
row below the frame height. -/
theorem packPlane_preserves_stride_padding (stride width h : Nat)
    (plane : List Nat) (px : List (List Nat)) (r j : Nat)
    (hw : 4 * width ≤ stride) (hp : ∀ q ∈ px, q.length = 4)
    (hr : r < h) (hj1 : 4 * width ≤ j) (hj2 : j < stride) :
    (packPlane stride width h plane px)[r * stride + j]? =
      plane[r * stride + j]? :=
  packPlane_padding_aux stride width j hw hj1 hj2 h plane px r hp hr

/-- Witness for `packPlane_preserves_stride_padding`: a 2×2 source packed
into rows of stride `2 * 4 + 8 = 16`; the byte at offset 12 of row 1 (a
trailing-padding byte) is unchanged. -/
theorem packPlane_preserves_stride_padding_w :
    (packPlane 16 2 2 (List.range 32) pix4)[1 * 16 + 12]? =
      (List.range 32)[1 * 16 + 12]? :=
  packPlane_preserves_stride_padding 16 2 2 (List.range 32) pix4 1 12
    (by decide) (by decide) (by decide) (by decide) (by decide)

/-- C9, counterexample: the claim says both packing paths reorder channels
into the destination's BGRA/BGRx byte order. The Collection-backed path
converts the source to RGBA8 and writes channels 0,1,2 in source order with
byte 3 forced to 0 (data_provider_impls.rs:103-124): packing the RGBA pixel
(r,g,b,a) = (1,2,3,4) emits the bytes [1,2,3,0] — red first — whereas the
BGRA reordering (as `to_bgra` yields, [3,2,1,4]) would put blue first. -/
theorem vec_no_reorder_counterexample :
    (vec_data_provider allOk vi1 vs60 fresh9 0 0 [[px1]]
          AppSrcState.init).map
        (fun st => st.2.pushed.map GstBuffer.data) =
      Except.ok [[1, 2, 3, 0]] ∧
    bgraChannels (Rgba.to_bgra px1) = [3, 2, 1, 4] ∧
    ([1, 2, 3, 0] : List Nat) ≠ [3, 2, 1, 0] ∧
    ([1, 2, 3, 0] : List Nat) ≠ [3, 2, 1, 4] := by
  refine ⟨rfl, rfl, by decide, by decide⟩

/-- C9, amended: the Channel-backed path copies pixel-by-pixel with channel
reordering via `Pixel::to_bgra` — an RGBA source pixel lands in the
destination as the bytes [b, g, r, a], and a source format lacking alpha
gets the deterministic alpha 255 from the conversion — while the
Collection-backed path converts the source to RGBA and writes the bytes
[r, g, b, 0] without reordering, forcing the fourth byte to 0. -/
theorem pixel_pack_channel_orders (p : Rgba) (q : Rgb) :
    (reciever_data_provider Rgba.to_bgra 2 allOk vi1 vs60 fresh9 0 0 [[p]]
          AppSrcState.init).map
        (fun st => st.2.2.pushed.map GstBuffer.data) =
      Except.ok [[p.b, p.g, p.r, p.a]] ∧
    bgraChannels (Rgb.to_bgra q) = [q.b, q.g, q.r, 255] ∧
    (vec_data_provider allOk vi1 vs60 fresh9 0 0 [[p]]
          AppSrcState.init).map
        (fun st => st.2.pushed.map GstBuffer.data) =
      Except.ok [[p.r, p.g, p.b, 0]] :=
  ⟨rfl, rfl, rfl⟩

/-- C10, confirmed: the `length` argument the sink passes to `need_data` is
ignored by both providers (`_length`, data_provider_impls.rs:24 and 81):
for any two requested lengths, an invocation performs identical receives,
packing, pushes, frame-index updates and signals — the results are equal
as whole outcomes (counter, remaining channel contents and sink state). -/
theorem length_argument_has_no_effect {P : Type} (toBgra : P → Bgra)
    (BUFFER_SIZE : Nat) (sb : SinkBehavior) (vi : VideoInfo)
    (vs : VideoSettings) (fresh : List Nat) (len1 len2 fn : Nat)
    (images : List (List Rgba)) (msgs : List (List P))
    (s s2 : AppSrcState) :
    vec_data_provider sb vi vs fresh len1 fn images s =
      vec_data_provider sb vi vs fresh len2 fn images s ∧
    reciever_data_provider toBgra BUFFER_SIZE sb vi vs fresh len1 fn msgs
        s2 =
      reciever_data_provider toBgra BUFFER_SIZE sb vi vs fresh len2 fn msgs
        s2 :=
  ⟨rfl, rfl⟩

end VideoEncodingDemo
